import Mathlib

/-!
Verification of the trivia-API and coffee-shop backends.

The route handlers of `flaskr/__init__.py` (trivia) and `src/api.py`
(coffee shop) are shallowly embedded as pure Lean functions.  HTTP
responses are `Except Nat R`: `Except.error s` models an `abort(s)`
reaching the framework's error handler (status code `s`), `Except.ok r`
models a 200 response with body `r`.  A `try: ... except Exception:
abort(s)` block is embedded by mapping every error of the inner
computation to `s`.  Handlers that mutate the store return the new store
as a second component.
-/

/-- SQLAlchemy's `Query.one_or_none()`: `none` for an empty result set,
the unique row if there is exactly one, and an exception (modelled as
`Except.error`) when the result has two or more rows. -/
def one_or_none : List α → Except Unit (Option α)
  | [] => Except.ok none
  | [a] => Except.ok (some a)
  | _ => Except.error ()

namespace Trivia

/-- A row of the `questions` table.  All non-key columns are nullable:
`Question(question=None, ...)` is accepted by the constructor, so the
fields are `Option`s. -/
structure Question where
  id : Nat
  question : Option String
  answer : Option String
  category : Option Nat
  difficulty : Option Nat
deriving Repr, DecidableEq

/-- The plain-data shape produced by `Question.format()` and used in
JSON responses.  Modelled from the spec: `models.py` is not under
`src/`; per the glossary a "formatted item" is "an entity rendered into
the plain-data shape used in JSON responses", i.e. the dictionary with
the five columns `id`, `question`, `answer`, `category`, `difficulty`. -/
structure FormattedQuestion where
  id : Nat
  question : Option String
  answer : Option String
  category : Option Nat
  difficulty : Option Nat
deriving Repr, DecidableEq

/-- Modelled from the spec: `Question.format()` from the missing
`models.py`, rendering a row into its plain-data response shape. -/
def Question.format (q : Question) : FormattedQuestion :=
  { id := q.id, question := q.question, answer := q.answer,
    category := q.category, difficulty := q.difficulty }

/-- The ordering used by `Question.query.order_by(Question.id)`. -/
def idLe (a b : Question) : Prop := a.id ≤ b.id

instance : DecidableRel idLe := fun a b => inferInstanceAs (Decidable (a.id ≤ b.id))

instance : IsTotal Question idLe := ⟨fun a b => Nat.le_total a.id b.id⟩

instance : IsTrans Question idLe := ⟨fun _ _ _ h1 h2 => Nat.le_trans h1 h2⟩

/-- Embeds `Question.query.order_by(Question.id).all()`: the stored rows sorted
by ascending id. -/
def sortById (store : List Question) : List Question :=
  List.insertionSort idLe store

def QUESTIONS_PER_PAGE : Nat := 10

/-- Embeds `paginate_questions(request, selection)`.  `page` is the 1-indexed
`page` query argument (default 1); the Python slice
`questions[start:start+10]` with `start = (page-1)*10` is
`drop start |>.take 10`. -/
def paginate_questions (page : Nat) (selection : List Question) : List FormattedQuestion :=
  let start := (page - 1) * QUESTIONS_PER_PAGE
  let questions := selection.map Question.format
  (questions.drop start).take QUESTIONS_PER_PAGE

/-- A row of the `categories` table. -/
structure Category where
  id : Nat
  type : String
deriving Repr, DecidableEq

/-- Embeds `category_list()`: the id/type pairs of all stored categories. -/
def category_list (cats : List Category) : List (Nat × String) :=
  cats.map (fun c => (c.id, c.type))

/-- The body of a 200 response of `GET /questions`. -/
structure QuestionsPage where
  success : Bool
  questions : List FormattedQuestion
  total_questions : Nat
  categories : List (Nat × String)
  current_category : Option Nat
deriving Repr, DecidableEq

/-- Handler of `GET /questions` (`get_questions`). -/
def get_questions (cats : List Category) (store : List Question) (page : Nat) :
    Except Nat QuestionsPage :=
  let questions := sortById store
  let current_questions := paginate_questions page questions
  let categories := category_list cats
  if current_questions.length = 0 then
    Except.error 404
  else
    Except.ok { success := true, questions := current_questions,
                total_questions := questions.length, categories := categories,
                current_category := none }

/-- The body of a 200 response of `DELETE /questions/{id}`. -/
structure DeleteResponse where
  success : Bool
  deleted : Nat
  questions : List FormattedQuestion
  total_questions : Nat
deriving Repr, DecidableEq

/-- Handler of `DELETE /questions/<question_id>` (`delete_specific_question`).
The whole body is a `try` block whose `except Exception` clause runs
`abort(422)`; in particular the `abort(404)` raised for a missing id is
itself caught and turned into a 422. -/
def delete_specific_question (store : List Question) (question_id : Nat) (page : Nat) :
    Except Nat DeleteResponse × List Question :=
  match one_or_none (store.filter (fun q => q.id == question_id)) with
  | Except.error _ => (Except.error 422, store)
  | Except.ok none => (Except.error 422, store)
  | Except.ok (some q) =>
    let store' := store.filter (fun r => !(r.id == q.id))
    let selection := sortById store'
    (Except.ok { success := true, deleted := question_id,
                 questions := paginate_questions page selection,
                 total_questions := selection.length }, store')

/-- Lower-casing of a character sequence, as applied by SQL `ILIKE` to
both the pattern and the matched text. -/
def lowerList (l : List Char) : List Char := l.map Char.toLower

/-- All suffixes of a list, the list itself and `[]` included. -/
def tails : List α → List (List α)
  | [] => [[]]
  | a :: t => (a :: t) :: tails t

/-- SQL `LIKE` pattern matching over character lists: `%` matches any
(possibly empty) sequence — i.e. the rest of the pattern matches some
suffix of the text — `_` matches any single character, and every other
pattern character matches itself. -/
def likeMatch : List Char → List Char → Bool
  | [], hay => hay.isEmpty
  | p :: ps, hay =>
    if p = '%' then
      (tails hay).any (fun t => likeMatch ps t)
    else
      match hay with
      | [] => false
      | c :: cs => (p = '_' || p = c) && likeMatch ps cs

/-- Embeds `column.ilike(pattern)`: case-insensitive `LIKE`. -/
def ilike (text pattern : String) : Bool :=
  likeMatch (lowerList pattern.data) (lowerList text.data)

/-- The filter `Question.question.ilike('%{}%'.format(search))`.
A row whose `question` column is SQL `NULL` never matches `LIKE`. -/
def matchesSearch (search : String) (q : Question) : Bool :=
  match q.question with
  | some s => ilike s ("%" ++ search ++ "%")
  | none => false

/-- The JSON body of `POST /questions`; every field is read with
`body.get(key, None)`, so each is an `Option` (`none` = key absent or
JSON `null`). -/
structure QuestionBody where
  question : Option String := none
  answer : Option String := none
  category : Option Nat := none
  difficulty : Option Nat := none
  searchTerm : Option String := none
deriving Repr, DecidableEq

/-- Python truthiness of the value `body.get('searchTerm', None)`:
`None` and the empty string are falsy, every other string is truthy. -/
def truthy : Option String → Bool
  | some s => !(s == "")
  | none => false

/-- The body of a 200 response of the search branch of
`POST /questions`. -/
structure SearchResponse where
  success : Bool
  questions : List FormattedQuestion
  total_questions : Nat
  current_category : Option Nat
deriving Repr, DecidableEq

/-- The body of a 200 response of the creation branch of
`POST /questions`. -/
structure CreatedResponse where
  success : Bool
  created : Nat
  questions : List FormattedQuestion
  total_questions : Nat
deriving Repr, DecidableEq

/-- The two response shapes `create_new_question` can produce. -/
inductive CreateResult where
  | search (r : SearchResponse)
  | insert (r : CreatedResponse)
deriving Repr, DecidableEq

/-- The ordered search result
`Question.query.order_by(Question.id).filter(Question.question.ilike('%term%'))`. -/
def searchMatches (store : List Question) (search : String) : List Question :=
  (sortById store).filter (matchesSearch search)

/-- Handler of `POST /questions` (`create_new_question`).  `next_id` is the primary
key the database assigns to the inserted row.  `if search:` selects the
search branch exactly when the `searchTerm` value is truthy. -/
def create_new_question (store : List Question) (body : QuestionBody)
    (page : Nat) (next_id : Nat) : Except Nat CreateResult × List Question :=
  if truthy body.searchTerm then
    let search := body.searchTerm.getD ""
    let selection := searchMatches store search
    let current_questions := paginate_questions page selection
    (Except.ok (CreateResult.search
        { success := true, questions := current_questions,
          total_questions := selection.length, current_category := none }), store)
  else
    let newQuestion : Question :=
      { id := next_id, question := body.question, answer := body.answer,
        category := body.category, difficulty := body.difficulty }
    let store' := store ++ [newQuestion]
    let selection := sortById store'
    (Except.ok (CreateResult.insert
        { success := true, created := next_id,
          questions := paginate_questions page selection,
          total_questions := selection.length }), store')

/-- The `quiz_category` object of the `POST /quizzes` body; its `id` is
read with `.get('id')`, hence an `Option`. -/
structure QuizCategory where
  id : Option Nat
deriving Repr, DecidableEq

/-- The body of a 200 response of `POST /quizzes`. -/
structure QuizResponse where
  success : Bool
  question : Option FormattedQuestion
deriving Repr, DecidableEq

/-- The candidate pool computed inside `play_quiz`: all questions when
`category_id == 0`, otherwise `Question.query.filter(Question.category
== category_id)` (SQLAlchemy renders `== None` as `IS NULL`, which the
`Option` equality mirrors). -/
def quizSelection (store : List Question) (qc : QuizCategory) : List Question :=
  if qc.id == some 0 then store
  else store.filter (fun q => q.category == qc.id)

/-- Handler of `POST /quizzes` (`play_quiz`).  `pick` models the randomness of
`random.choice`, which returns the element at an arbitrary valid index;
the chosen index is `pick % length`.  When `quiz_category` is `None`,
`quiz_category.get('id')` raises `AttributeError` before the `try`
block, an unhandled 500.  A non-empty dict is truthy, so with
`quiz_category` present the `if quiz_category:` branch is taken; an
empty candidate pool hits `abort(422)` inside the `try`, which the
`except Exception` clause converts to `abort(404)`. -/
def play_quiz (store : List Question) (previous_questions : List Nat)
    (quiz_category : Option QuizCategory) (pick : Nat) : Except Nat QuizResponse :=
  match quiz_category with
  | none => Except.error 500
  | some qc =>
    let selection := quizSelection store qc
    if selection.isEmpty then
      Except.error 404
    else
      let quiz_questions :=
        (selection.filter (fun q => !(previous_questions.contains q.id))).map
          Question.format
      if h : quiz_questions.length = 0 then
        Except.ok { success := false, question := none }
      else
        Except.ok { success := true,
                    question := some (quiz_questions.get
                      ⟨pick % quiz_questions.length,
                       Nat.mod_lt _ (Nat.pos_of_ne_zero h)⟩) }

end Trivia

namespace Coffee

/-- JSON values, the shape of request/response bodies and of the
decoded `recipe` column. -/
inductive Json where
  | null
  | bool (b : Bool)
  | num (n : Int)
  | str (s : String)
  | arr (elems : List Json)
  | obj (fields : List (String × Json))
deriving Repr

/-- The escaping `json.dumps` applies inside string literals. -/
def escapeChar (c : Char) : String :=
  if c = '"' then "\\\""
  else if c = '\\' then "\\\\"
  else if c = '\n' then "\\n"
  else if c = '\t' then "\\t"
  else if c = '\r' then "\\r"
  else String.singleton c

def escapeString (s : String) : String :=
  String.join (s.data.map escapeChar)

mutual

/-- Python's `json.dumps` with its default separators. -/
def jsonDumps : Json → String
  | Json.null => "null"
  | Json.bool true => "true"
  | Json.bool false => "false"
  | Json.num n => toString n
  | Json.str s => "\"" ++ escapeString s ++ "\""
  | Json.arr l => "[" ++ jsonDumpsItems l ++ "]"
  | Json.obj l => "\x7b" ++ jsonDumpsMembers l ++ "\x7d"

def jsonDumpsItems : List Json → String
  | [] => ""
  | [j] => jsonDumps j
  | j :: rest => jsonDumps j ++ ", " ++ jsonDumpsItems rest

def jsonDumpsMembers : List (String × Json) → String
  | [] => ""
  | [(k, v)] => "\"" ++ escapeString k ++ "\": " ++ jsonDumps v
  | (k, v) :: rest =>
    "\"" ++ escapeString k ++ "\": " ++ jsonDumps v ++ ", " ++ jsonDumpsMembers rest

end

/-- Whitespace skipping of the JSON reader. -/
def skipWs : List Char → List Char
  | c :: cs =>
    if c = ' ' || c = '\n' || c = '\t' || c = '\r' then skipWs cs else c :: cs
  | [] => []

/-- Reads the remainder of a JSON string literal (the opening quote
already consumed), handling the standard escapes. -/
def parseStringRest : List Char → Option (String × List Char)
  | [] => none
  | c :: cs =>
    if c = '"' then some ("", cs)
    else if c = '\\' then
      match cs with
      | [] => none
      | e :: rest =>
        let dec : Option Char :=
          if e = '"' then some '"'
          else if e = '\\' then some '\\'
          else if e = '/' then some '/'
          else if e = 'n' then some '\n'
          else if e = 't' then some '\t'
          else if e = 'r' then some '\r'
          else none
        match dec with
        | none => none
        | some d =>
          match parseStringRest rest with
          | some (s, r2) => some (String.singleton d ++ s, r2)
          | none => none
    else
      match parseStringRest cs with
      | some (s, r2) => some (String.singleton c ++ s, r2)
      | none => none

/-- Reads a non-empty run of decimal digits. -/
def parseNat (input : List Char) : Option (Nat × List Char) :=
  let digits := input.takeWhile Char.isDigit
  let rest := input.dropWhile Char.isDigit
  if digits.isEmpty then none
  else some (digits.foldl (fun acc c => acc * 10 + (c.toNat - 48)) 0, rest)

mutual

/-- A fuel-indexed JSON reader (integers only), modelling
`json.loads`. -/
def parseJson : Nat → List Char → Option (Json × List Char)
  | 0, _ => none
  | Nat.succ fuel, input =>
    match skipWs input with
    | [] => none
    | c :: cs =>
      if c = 'n' then
        match cs with
        | 'u' :: 'l' :: 'l' :: rest => some (Json.null, rest)
        | _ => none
      else if c = 't' then
        match cs with
        | 'r' :: 'u' :: 'e' :: rest => some (Json.bool true, rest)
        | _ => none
      else if c = 'f' then
        match cs with
        | 'a' :: 'l' :: 's' :: 'e' :: rest => some (Json.bool false, rest)
        | _ => none
      else if c = '"' then
        match parseStringRest cs with
        | some (s, rest) => some (Json.str s, rest)
        | none => none
      else if c = '[' then
        match skipWs cs with
        | [] => none
        | c2 :: rest2 =>
          if c2 = ']' then some (Json.arr [], rest2)
          else
            match parseItems fuel (c2 :: rest2) with
            | some (items, rest) => some (Json.arr items, rest)
            | none => none
      else if c.toNat = 123 then
        match skipWs cs with
        | [] => none
        | c2 :: rest2 =>
          if c2.toNat = 125 then some (Json.obj [], rest2)
          else
            match parseMembers fuel (c2 :: rest2) with
            | some (fields, rest) => some (Json.obj fields, rest)
            | none => none
      else if c = '-' then
        match parseNat cs with
        | some (n, rest) => some (Json.num (-(n : Int)), rest)
        | none => none
      else if c.isDigit then
        match parseNat (c :: cs) with
        | some (n, rest) => some (Json.num (n : Int), rest)
        | none => none
      else none

/-- The elements of a non-empty JSON array, up to and including the
closing bracket. -/
def parseItems : Nat → List Char → Option (List Json × List Char)
  | 0, _ => none
  | Nat.succ fuel, input =>
    match parseJson fuel input with
    | none => none
    | some (j, rest) =>
      match skipWs rest with
      | [] => none
      | c :: cs =>
        if c = ',' then
          match parseItems fuel cs with
          | some (items, rest2) => some (j :: items, rest2)
          | none => none
        else if c = ']' then some ([j], cs)
        else none

/-- The members of a non-empty JSON object, up to and including the
closing brace. -/
def parseMembers : Nat → List Char → Option (List (String × Json) × List Char)
  | 0, _ => none
  | Nat.succ fuel, input =>
    match skipWs input with
    | [] => none
    | c :: cs =>
      if c = '"' then
        match parseStringRest cs with
        | none => none
        | some (key, rest) =>
          match skipWs rest with
          | [] => none
          | c2 :: cs2 =>
            if c2 = ':' then
              match parseJson fuel cs2 with
              | none => none
              | some (v, rest2) =>
                match skipWs rest2 with
                | [] => none
                | c3 :: cs3 =>
                  if c3 = ',' then
                    match parseMembers fuel cs3 with
                    | some (fields, rest3) => some ((key, v) :: fields, rest3)
                    | none => none
                  else if c3.toNat = 125 then some ([(key, v)], cs3)
                  else none
            else none
      else none

end

/-- Embeds `json.loads`: reads one JSON value and requires only trailing
whitespace after it; `none` models the `JSONDecodeError` raise. -/
def jsonLoads (s : String) : Option Json :=
  match parseJson (2 * s.length + 2) s.data with
  | some (j, rest) => if (skipWs rest).isEmpty then some j else none
  | none => none

/-- A row of the `drinks` table: `title` is a nullable column, `recipe`
holds the JSON-encoded ingredient list as text. -/
structure Drink where
  id : Nat
  title : Option String
  recipe : String
deriving Repr, DecidableEq

/-- A nullable text column rendered into JSON. -/
def jsonOfOptStr : Option String → Json
  | some s => Json.str s
  | none => Json.null

/-- Modelled from the spec: `Drink.short()` from the missing
`models.py`, "a reduced ... field projection of an entity for list
views". -/
def Drink.short (d : Drink) : Json :=
  Json.obj [("id", Json.num (d.id : Int)), ("title", jsonOfOptStr d.title)]

/-- Modelled from the spec: `Drink.long()` from the missing `models.py`,
the full projection with the `recipe` text "decoded only at the boundary
for 'long' representation"; decoding a corrupt recipe raises
(`none`). -/
def Drink.long (d : Drink) : Option Json :=
  match jsonLoads d.recipe with
  | some r =>
    some (Json.obj [("id", Json.num (d.id : Int)),
                    ("title", jsonOfOptStr d.title), ("recipe", r)])
  | none => none

/-- The ordering used by `Drink.query.order_by(Drink.id)`. -/
def drinkLe (a b : Drink) : Prop := a.id ≤ b.id

instance : DecidableRel drinkLe := fun a b => inferInstanceAs (Decidable (a.id ≤ b.id))

/-- Embeds `Drink.query.order_by(Drink.id).all()`. -/
def sortDrinks (store : List Drink) : List Drink :=
  List.insertionSort drinkLe store

/-- Handler of `GET /drinks` (`display_drinks`).  The `abort(404)` for an empty
store is raised inside the `try` block, so the `except Exception`
clause turns it — like any other failure — into `abort(400)`. -/
def display_drinks (store : List Drink) : Except Nat Json :=
  let drinks := (sortDrinks store).map Drink.short
  let attempt : Except Nat Json :=
    if drinks.length = 0 then
      Except.error 404
    else
      Except.ok (Json.obj [("success", Json.bool true), ("drinks", Json.arr drinks)])
  match attempt with
  | Except.ok r => Except.ok r
  | Except.error _ => Except.error 400

/-- The JSON body of `PATCH /drinks/{id}`: both fields optional. -/
structure DrinkPatchBody where
  title : Option String := none
  recipe : Option Json := none

/-- Handler of `PATCH /drinks/<id>` (`update_drink`).  `body.get('title',
drink.title)` / `body.get('recipe', drink.recipe)` default a missing
field to the stored value — for `recipe` that stored value is the
already-encoded text, which `json.dumps` then encodes a second time.
Every failure inside the `try` block becomes `abort(404)`. -/
def update_drink (store : List Drink) (id : Nat) (body : DrinkPatchBody) :
    Except Nat Json × List Drink :=
  match one_or_none (store.filter (fun d => d.id == id)) with
  | Except.error _ => (Except.error 404, store)
  | Except.ok none => (Except.error 404, store)
  | Except.ok (some drink) =>
    let new_title : Option String :=
      match body.title with
      | some t => some t
      | none => drink.title
    let new_recipe : Json :=
      match body.recipe with
      | some r => r
      | none => Json.str drink.recipe
    let drink' : Drink := { drink with title := new_title, recipe := jsonDumps new_recipe }
    let store' := store.map (fun d => if d.id == id then drink' else d)
    match (sortDrinks store').mapM Drink.long with
    | some drinks =>
      (Except.ok (Json.obj [("success", Json.bool true), ("drinks", Json.arr drinks)]), store')
    | none => (Except.error 404, store')

/-- Handler of `DELETE /drinks/<id>` (`delete_drink`).  On success the body is
`{"success": True, "drinks": [...]}` — the re-fetched long list, with no
`delete` key. -/
def delete_drink (store : List Drink) (id : Nat) : Except Nat Json × List Drink :=
  match one_or_none (store.filter (fun d => d.id == id)) with
  | Except.error _ => (Except.error 404, store)
  | Except.ok none => (Except.error 404, store)
  | Except.ok (some drink) =>
    let store' := store.filter (fun d => !(d.id == drink.id))
    match (sortDrinks store').mapM Drink.long with
    | some drinks =>
      (Except.ok (Json.obj [("success", Json.bool true), ("drinks", Json.arr drinks)]), store')
    | none => (Except.error 404, store')

/-- A verified bearer token's payload: its `permissions` claim. -/
structure Token where
  permissions : List String

/-- Modelled from the spec: the auth module (`auth.auth.requires_auth`)
is not under `src/`; per §4.4 the gate rejects with 403 (Forbidden) when
the required permission string is not an element of the verified token's
permission set, and otherwise runs the handler body on the store. -/
def requires_auth (permission : String) (tok : Token)
    (handler : List Drink → Except Nat Json × List Drink)
    (store : List Drink) : Except Nat Json × List Drink :=
  if permission ∈ tok.permissions then handler store
  else (Except.error 403, store)

/-- The full `PATCH /drinks/<id>` endpoint: the `patch:drinks` gate in
front of `update_drink`. -/
def patch_drink_endpoint (tok : Token) (store : List Drink) (id : Nat)
    (body : DrinkPatchBody) : Except Nat Json × List Drink :=
  requires_auth "patch:drinks" tok (fun s => update_drink s id body) store

/-- Key lookup in a JSON object (`none` on non-objects and missing
keys). -/
def jsonLookup (key : String) : Json → Option Json
  | Json.obj fields => fields.lookup key
  | _ => none

end Coffee

section Lemmas

variable {α : Type}

theorem take_add_eq (l : List α) (m n : Nat) :
    l.take (m + n) = l.take m ++ (l.drop m).take n := by
  induction m generalizing l with
  | zero => simp
  | succ m ih =>
    cases l with
    | nil => simp
    | cons a t =>
      have hmn : m + 1 + n = (m + n) + 1 := by omega
      rw [hmn]
      simp [List.take_succ_cons, ih]

/-- Concatenating the 10-element pages of a list, in order, yields its
first `k * 10` elements. -/
theorem flatten_pages (l : List α) (k : Nat) :
    ((List.range k).map (fun i => (l.drop (i * 10)).take 10)).flatten
      = l.take (k * 10) := by
  induction k with
  | zero => simp
  | succ k ih =>
    rw [List.range_succ, List.map_append, List.flatten_append, ih]
    have hk : (k + 1) * 10 = k * 10 + 10 := by ring
    rw [hk, take_add_eq]
    simp

theorem self_mem_tails (l : List α) : l ∈ Trivia.tails l := by
  cases l <;> simp [Trivia.tails]

theorem nil_mem_tails (l : List α) : [] ∈ Trivia.tails l := by
  induction l with
  | nil => simp [Trivia.tails]
  | cons a t ih => simp [Trivia.tails, ih]

theorem suffix_mem_tails (a b : List α) : b ∈ Trivia.tails (a ++ b) := by
  induction a with
  | nil => simpa using self_mem_tails b
  | cons c a ih => simp [Trivia.tails, ih]

end Lemmas

namespace Trivia

theorem likeMatch_pct_suffix (ps : List Char) (hay t : List Char)
    (hmem : t ∈ tails hay) (h : likeMatch ps t = true) :
    likeMatch ('%' :: ps) hay = true := by
  simp only [likeMatch, if_true, eq_self_iff_true, List.any_eq_true, if_pos]
  exact ⟨t, hmem, h⟩

/-- The pattern `T ++ "%"` matches any text beginning with `T`. -/
theorem likeMatch_self_append_pct (T b : List Char) :
    likeMatch (T ++ ['%']) (T ++ b) = true := by
  induction T generalizing b with
  | nil =>
    simpa using likeMatch_pct_suffix [] b [] (nil_mem_tails b) rfl
  | cons c T ih =>
    by_cases hc : c = '%'
    · subst hc
      exact likeMatch_pct_suffix (T ++ ['%']) ('%' :: (T ++ b)) (T ++ b)
        (by simp [tails, self_mem_tails]) (ih b)
    · show likeMatch (c :: (T ++ ['%'])) (c :: (T ++ b)) = true
      simp [likeMatch, hc, ih b]

/-- Soundness of containment for `ILIKE`: a text whose lower-casing
contains the lower-cased term as a (literal) substring always matches
the pattern `'%term%'`. -/
theorem ilike_of_contains (s t : String) (a b : List Char)
    (h : lowerList s.data = a ++ lowerList t.data ++ b) :
    ilike s ("%" ++ t ++ "%") = true := by
  have hpct : ("%" : String).data = ['%'] := rfl
  have hdata : ("%" ++ t ++ "%").data = '%' :: (t.data ++ ['%']) := by
    rw [String.data_append, String.data_append, hpct]
    simp
  have hlow : lowerList (("%" ++ t ++ "%").data)
      = '%' :: (lowerList t.data ++ ['%']) := by
    rw [hdata]
    have hc : Char.toLower '%' = '%' := by decide
    simp [lowerList, hc]
  unfold ilike
  rw [hlow, h]
  refine likeMatch_pct_suffix (lowerList t.data ++ ['%'])
    (a ++ lowerList t.data ++ b) (lowerList t.data ++ b) ?_ ?_
  · have := suffix_mem_tails a (lowerList t.data ++ b)
    simpa [List.append_assoc] using this
  · exact likeMatch_self_append_pct (lowerList t.data) b

/-- With pairwise-distinct ids, filtering on an id held by a member of
the list yields exactly that member. -/
theorem filter_id_singleton (l : List Question) (q0 : Question) (k : Nat)
    (hnodup : (l.map Question.id).Nodup) (hmem : q0 ∈ l) (hk : q0.id = k) :
    l.filter (fun q => q.id == k) = [q0] := by
  induction l with
  | nil => cases hmem
  | cons b tl ih =>
    rw [List.map_cons, List.nodup_cons] at hnodup
    rcases List.mem_cons.mp hmem with rfl | htl
    · rw [List.filter_cons, if_pos (by simp [hk])]
      have htail : tl.filter (fun q => q.id == k) = [] := by
        refine List.filter_eq_nil_iff.mpr ?_
        intro x hx hxk
        exact hnodup.1 (hk ▸ (by simpa using hxk : x.id = k) ▸
          List.mem_map_of_mem Question.id hx)
      rw [htail]
    · have hbk : ¬ (b.id == k) = true := by
        intro hbk
        refine hnodup.1 ?_
        have : b.id = k := by simpa using hbk
        exact this ▸ hk ▸ List.mem_map_of_mem Question.id htl
      rw [List.filter_cons, if_neg hbk]
      exact ih hnodup.2 htl

theorem filter_id_nil (l : List Question) (k : Nat)
    (h : ∀ q ∈ l, q.id ≠ k) : l.filter (fun q => q.id == k) = [] := by
  refine List.filter_eq_nil_iff.mpr ?_
  intro q hq hqk
  exact h q hq (by simpa using hqk)

end Trivia

/-! Example fixtures used by witnesses and counterexamples. -/

def q1ex : Trivia.Question :=
  { id := 1, question := some "What is the title of the book?",
    answer := some "Unknown", category := some 1, difficulty := some 2 }

def q2ex : Trivia.Question :=
  { id := 2, question := some "Capital of France?", answer := some "Paris",
    category := some 3, difficulty := some 1 }

def d1ex : Coffee.Drink := { id := 1, title := some "water", recipe := "[]" }

/-! Claims. -/

/-- C1 (counterexample): with one stored question of category 1 whose id
is already in `previous_questions`, `POST /quizzes` for category 1
returns HTTP 200 with `question: null` but with `success: false`, not
`success: true` as the claim states. -/
theorem C1_counterexample :
    Trivia.play_quiz [q1ex] [1] (some ⟨some 1⟩) 0 =
      Except.ok { success := false, question := none } ∧
    ¬ Trivia.play_quiz [q1ex] [1] (some ⟨some 1⟩) 0 =
      Except.ok { success := true, question := none } :=
  ⟨rfl, fun h => by simpa using Except.ok.inj h⟩

/-- C1 (amended): when the selected category's candidate pool is
non-empty but every candidate's id is in `previous_questions`,
`POST /quizzes` returns HTTP 200 with `question: null` and
`success: false`. -/
theorem C1_amended (store : List Trivia.Question) (prev : List Nat)
    (qc : Trivia.QuizCategory) (pick : Nat)
    (hne : Trivia.quizSelection store qc ≠ [])
    (hall : ∀ q ∈ Trivia.quizSelection store qc, q.id ∈ prev) :
    Trivia.play_quiz store prev (some qc) pick =
      Except.ok { success := false, question := none } := by
  have hempty : Trivia.quizSelection store qc ≠ [] := hne
  have hfilter : (Trivia.quizSelection store qc).filter
      (fun q => !(prev.contains q.id)) = [] := by
    refine List.filter_eq_nil_iff.mpr ?_
    intro q hq
    simpa using hall q hq
  simp only [Trivia.play_quiz]
  rw [if_neg (by simpa using hempty)]
  simp only [hfilter]
  simp

/-- C1 (amended) witness at a concrete store and request. -/
theorem C1_amended_witness :
    Trivia.quizSelection [q1ex] ⟨some 1⟩ ≠ [] ∧
    Trivia.play_quiz [q1ex] [1] (some ⟨some 1⟩) 7 =
      Except.ok { success := false, question := none } :=
  ⟨by decide, C1_amended [q1ex] [1] ⟨some 1⟩ 7 (by decide) (by decide)⟩

/-- C4 (counterexample): `GET /drinks` on an empty store returns 400,
not 404 — the `abort(404)` is raised inside the handler's `try` block
and the blanket `except Exception` clause converts it to `abort(400)`. -/
theorem C4_counterexample :
    Coffee.display_drinks [] = Except.error 400 ∧
    ¬ Coffee.display_drinks [] = Except.error 404 :=
  ⟨rfl, fun h => by simpa using Except.error.inj h⟩

/-- C4 (amended): `GET /drinks` returns 400 when the set of stored
drinks is empty (and for any other failure), and on a non-empty store
returns 200 with `success: true` and all drinks in short
representation. -/
theorem C4_amended (store : List Coffee.Drink) (h : store ≠ []) :
    Coffee.display_drinks store =
      Except.ok (Coffee.Json.obj
        [("success", Coffee.Json.bool true),
         ("drinks", Coffee.Json.arr ((Coffee.sortDrinks store).map Coffee.Drink.short))]) := by
  have hlen : ((Coffee.sortDrinks store).map Coffee.Drink.short).length ≠ 0 := by
    rw [List.length_map]
    unfold Coffee.sortDrinks
    rw [List.length_insertionSort]
    simpa [List.length_eq_zero] using h
  simp only [Coffee.display_drinks]
  rw [if_neg hlen]

/-- C4 (amended) witness at a concrete one-drink store. -/
theorem C4_amended_witness :
    [d1ex] ≠ ([] : List Coffee.Drink) ∧
    Coffee.display_drinks [d1ex] =
      Except.ok (Coffee.Json.obj
        [("success", Coffee.Json.bool true),
         ("drinks", Coffee.Json.arr ((Coffee.sortDrinks [d1ex]).map Coffee.Drink.short))]) :=
  ⟨by decide, C4_amended [d1ex] (by decide)⟩

/-- C5 (code bug): `PATCH /drinks/1` on a drink whose stored recipe is
the encoded text `[]`, with a body supplying only `title`, re-encodes
the stored recipe (`json.dumps` of the already-encoded text), leaving
`"[]"` — with quotes — instead of the unchanged `[]`. -/
theorem C5_failing_eval :
    (Coffee.update_drink [{ id := 1, title := some "water", recipe := "[]" }] 1
        { title := some "sparkling", recipe := none }).2 =
      [{ id := 1, title := some "sparkling", recipe := "\"[]\"" }] ∧
    ("\"[]\"" : String) ≠ "[]" :=
  ⟨rfl, by decide⟩

/-- C8: a `PATCH /drinks/{id}` request with a verified token whose
permission set lacks `patch:drinks` is rejected with 403 by the gate and
the store is unchanged — the handler body never runs. -/
theorem C8_forbidden (tok : Coffee.Token) (store : List Coffee.Drink)
    (id : Nat) (body : Coffee.DrinkPatchBody)
    (h : "patch:drinks" ∉ tok.permissions) :
    Coffee.patch_drink_endpoint tok store id body = (Except.error 403, store) := by
  unfold Coffee.patch_drink_endpoint Coffee.requires_auth
  rw [if_neg h]

/-- C8 witness: a token holding only `get:drinks-detail`. -/
theorem C8_forbidden_witness :
    "patch:drinks" ∉ (Coffee.Token.mk ["get:drinks-detail"]).permissions ∧
    Coffee.patch_drink_endpoint (Coffee.Token.mk ["get:drinks-detail"]) [d1ex] 1
        { title := some "tea", recipe := none } = (Except.error 403, [d1ex]) :=
  ⟨by decide,
   C8_forbidden (Coffee.Token.mk ["get:drinks-detail"]) [d1ex] 1
     { title := some "tea", recipe := none } (by decide)⟩

/-- C9 (code bug): a successful `DELETE /drinks/1` responds with
`{"success": true, "drinks": [...]}` — there is no `delete` key in the
body, contrary to the handler's own docstring and the claim. -/
theorem C9_failing_eval :
    Coffee.delete_drink [{ id := 1, title := some "water", recipe := "[]" }] 1 =
      (Except.ok (Coffee.Json.obj
        [("success", Coffee.Json.bool true), ("drinks", Coffee.Json.arr [])]), []) ∧
    Coffee.jsonLookup "delete"
      (Coffee.Json.obj
        [("success", Coffee.Json.bool true), ("drinks", Coffee.Json.arr [])]) = none :=
  ⟨rfl, rfl⟩

/-- C10: `POST /questions` with `searchTerm` present but equal to the
empty string is falsy in `if search:`, so the creation branch runs and
appends a question whose four fields are the body's values (each `None`
when absent). -/
theorem C10_empty_search (store : List Trivia.Question)
    (body : Trivia.QuestionBody) (page next_id : Nat)
    (hterm : body.searchTerm = some "") :
    Trivia.create_new_question store body page next_id =
      (Except.ok (Trivia.CreateResult.insert
        { success := true, created := next_id,
          questions := Trivia.paginate_questions page
            (Trivia.sortById (store ++ [Trivia.Question.mk next_id
              body.question body.answer body.category body.difficulty])),
          total_questions := (Trivia.sortById (store ++ [Trivia.Question.mk
              next_id body.question body.answer body.category
              body.difficulty])).length }),
       store ++ [Trivia.Question.mk next_id body.question body.answer
           body.category body.difficulty]) := by
  unfold Trivia.create_new_question
  rw [hterm]
  simp [Trivia.truthy]

/-- C10 witness: an empty `searchTerm` alongside creation fields. -/
theorem C10_empty_search_witness :
    (Trivia.QuestionBody.mk (some "New Q?") (some "New A") (some 2) (some 3)
        (some "")).searchTerm = some "" ∧
    Trivia.create_new_question [q1ex]
        (Trivia.QuestionBody.mk (some "New Q?") (some "New A") (some 2) (some 3)
          (some "")) 1 5 =
      (Except.ok (Trivia.CreateResult.insert
        { success := true, created := 5,
          questions := Trivia.paginate_questions 1
            (Trivia.sortById ([q1ex] ++ [Trivia.Question.mk 5 (some "New Q?")
              (some "New A") (some 2) (some 3)])),
          total_questions := (Trivia.sortById ([q1ex] ++ [Trivia.Question.mk 5
              (some "New Q?") (some "New A") (some 2) (some 3)])).length }),
       [q1ex] ++ [Trivia.Question.mk 5 (some "New Q?") (some "New A") (some 2)
           (some 3)]) :=
  ⟨rfl,
   C10_empty_search [q1ex]
     (Trivia.QuestionBody.mk (some "New Q?") (some "New A") (some 2) (some 3)
       (some "")) 1 5 rfl⟩

/-- C2: for every page `N ≥ 1`, a 200 response of `GET /questions?page=N`
carries exactly the slice `[(N-1)*10, N*10)` of the id-ordered formatted
question list (hence at most 10 items) and `total_questions` equal to
the total number of stored questions; the ordered list is an id-sorted
permutation of the store, and the concatenation of the pages over
increasing `N` reproduces the whole id-ordered formatted list. -/
theorem C2_pagination (cats : List Trivia.Category) (store : List Trivia.Question)
    (page : Nat) (r : Trivia.QuestionsPage) (hpage : 1 ≤ page)
    (hok : Trivia.get_questions cats store page = Except.ok r) :
    r.questions = (((Trivia.sortById store).map Trivia.Question.format).drop
        ((page - 1) * 10)).take 10 ∧
    r.questions.length ≤ 10 ∧
    r.total_questions = store.length ∧
    (Trivia.sortById store).Pairwise Trivia.idLe ∧
    (Trivia.sortById store).Perm store ∧
    (∀ k, store.length ≤ k * 10 →
      ((List.range k).map (fun i =>
          (((Trivia.sortById store).map Trivia.Question.format).drop
            (i * 10)).take 10)).flatten
        = (Trivia.sortById store).map Trivia.Question.format) := by
  simp only [Trivia.get_questions] at hok
  by_cases hc : (Trivia.paginate_questions page (Trivia.sortById store)).length = 0
  · rw [if_pos hc] at hok
    simp at hok
  · rw [if_neg hc] at hok
    have hr := Except.ok.inj hok
    subst hr
    refine ⟨?_, ?_, ?_, ?_, ?_, ?_⟩
    · simp [Trivia.paginate_questions, Trivia.QUESTIONS_PER_PAGE]
    · exact List.length_take_le 10 _
    · show (Trivia.sortById store).length = store.length
      exact List.length_insertionSort Trivia.idLe store
    · exact List.sorted_insertionSort Trivia.idLe store
    · exact List.perm_insertionSort Trivia.idLe store
    · intro k hk
      rw [flatten_pages]
      refine List.take_of_length_le ?_
      rw [List.length_map]
      rw [show (Trivia.sortById store).length = store.length from
        List.length_insertionSort Trivia.idLe store]
      exact hk

def pageEx : Trivia.QuestionsPage :=
  { success := true, questions := [Trivia.Question.format q1ex],
    total_questions := 1, categories := [], current_category := none }

/-- C2 witness: a one-question store, page 1. -/
theorem C2_pagination_witness :
    (1 ≤ 1) ∧ Trivia.get_questions [] [q1ex] 1 = Except.ok pageEx ∧
    (pageEx.questions = (((Trivia.sortById [q1ex]).map
        Trivia.Question.format).drop ((1 - 1) * 10)).take 10 ∧
      pageEx.questions.length ≤ 10 ∧
      pageEx.total_questions = [q1ex].length ∧
      (Trivia.sortById [q1ex]).Pairwise Trivia.idLe ∧
      (Trivia.sortById [q1ex]).Perm [q1ex] ∧
      (∀ k, [q1ex].length ≤ k * 10 →
        ((List.range k).map (fun i =>
            (((Trivia.sortById [q1ex]).map Trivia.Question.format).drop
              (i * 10)).take 10)).flatten
          = (Trivia.sortById [q1ex]).map Trivia.Question.format)) :=
  ⟨Nat.le_refl 1, rfl, C2_pagination [] [q1ex] 1 pageEx (Nat.le_refl 1) rfl⟩

/-- C3: with pairwise-distinct stored ids, `DELETE /questions/{id}` on a
present id succeeds and removes exactly that question — no question with
that id survives in the store, and no 200 response of a subsequent
`GET /questions` lists it — while on an absent id it returns 422 and
leaves the store unchanged. -/
theorem C3_delete (store : List Trivia.Question) (qid page : Nat)
    (hnodup : (store.map Trivia.Question.id).Nodup) :
    ((∃ q ∈ store, q.id = qid) →
      (Trivia.delete_specific_question store qid page).1.isOk = true ∧
      (Trivia.delete_specific_question store qid page).2 =
        store.filter (fun q => !(q.id == qid)) ∧
      (∀ q ∈ (Trivia.delete_specific_question store qid page).2, q.id ≠ qid) ∧
      (∀ cats p2 r,
        Trivia.get_questions cats
            (Trivia.delete_specific_question store qid page).2 p2 =
          Except.ok r →
        ∀ fq ∈ r.questions, fq.id ≠ qid)) ∧
    ((∀ q ∈ store, q.id ≠ qid) →
      Trivia.delete_specific_question store qid page = (Except.error 422, store)) := by
  constructor
  · rintro ⟨q0, hq0, hid⟩
    have hfil : store.filter (fun q => q.id == qid) = [q0] :=
      Trivia.filter_id_singleton store q0 qid hnodup hq0 hid
    have hdel : Trivia.delete_specific_question store qid page =
        (Except.ok (Trivia.DeleteResponse.mk true qid
          (Trivia.paginate_questions page
            (Trivia.sortById (store.filter (fun r => !(r.id == q0.id)))))
          ((Trivia.sortById (store.filter (fun r => !(r.id == q0.id)))).length)),
         store.filter (fun r => !(r.id == q0.id))) := by
      simp only [Trivia.delete_specific_question, hfil]
      rfl
    have hmemne : ∀ q ∈ store.filter (fun r => !(r.id == q0.id)), q.id ≠ qid := by
      intro q hq hqe
      rcases List.mem_filter.mp hq with ⟨_, hcond⟩
      simp [hqe, hid] at hcond
    refine ⟨?_, ?_, ?_, ?_⟩
    · rw [hdel]
      rfl
    · rw [hdel, hid]
    · rw [hdel]
      exact hmemne
    · intro cats p2 r hr fq hfq
      rw [hdel] at hr
      simp only [Trivia.get_questions] at hr
      by_cases hc : (Trivia.paginate_questions p2
          (Trivia.sortById (store.filter (fun r => !(r.id == q0.id))))).length = 0
      · rw [if_pos hc] at hr
        simp at hr
      · rw [if_neg hc] at hr
        have hrr := Except.ok.inj hr
        subst hrr
        have hfq' : fq ∈ (Trivia.sortById
            (store.filter (fun r => !(r.id == q0.id)))).map Trivia.Question.format := by
          exact List.mem_of_mem_drop (List.mem_of_mem_take hfq)
        rcases List.mem_map.mp hfq' with ⟨q, hqmem, rfl⟩
        have hqstore : q ∈ store.filter (fun r => !(r.id == q0.id)) :=
          (List.perm_insertionSort Trivia.idLe _).mem_iff.mp hqmem
        exact hmemne q hqstore
  · intro hnone
    have hfil : store.filter (fun q => q.id == qid) = [] :=
      Trivia.filter_id_nil store qid hnone
    simp only [Trivia.delete_specific_question, hfil]
    rfl

/-- C3 witness: deleting id 1 from a two-question store. -/
theorem C3_delete_witness :
    ([q1ex, q2ex].map Trivia.Question.id).Nodup ∧
    (((∃ q ∈ [q1ex, q2ex], q.id = 1) →
        (Trivia.delete_specific_question [q1ex, q2ex] 1 1).1.isOk = true ∧
        (Trivia.delete_specific_question [q1ex, q2ex] 1 1).2 =
          [q1ex, q2ex].filter (fun q => !(q.id == 1)) ∧
        (∀ q ∈ (Trivia.delete_specific_question [q1ex, q2ex] 1 1).2, q.id ≠ 1) ∧
        (∀ cats p2 r,
          Trivia.get_questions cats
              (Trivia.delete_specific_question [q1ex, q2ex] 1 1).2 p2 =
            Except.ok r →
          ∀ fq ∈ r.questions, fq.id ≠ 1)) ∧
      ((∀ q ∈ [q1ex, q2ex], q.id ≠ 1) →
        Trivia.delete_specific_question [q1ex, q2ex] 1 1 =
          (Except.error 422, [q1ex, q2ex]))) :=
  ⟨by decide, C3_delete [q1ex, q2ex] 1 1 (by decide)⟩

/-- C6: `POST /questions` with a truthy `searchTerm` takes the search
branch: it returns 200 with the page-slice of the id-ordered matching
questions and `total_questions` equal to the number of matches, leaving
the store unchanged; the matched list is ordered by id; every stored
question whose text contains the term as a case-insensitive substring is
among the matches; and a term matching nothing yields a 200 response
with an empty list and `total_questions = 0`. -/
theorem C6_search (store : List Trivia.Question) (body : Trivia.QuestionBody)
    (page next_id : Nat) (t : String)
    (hterm : body.searchTerm = some t) (hne : t ≠ "") :
    Trivia.create_new_question store body page next_id =
      (Except.ok (Trivia.CreateResult.search
        { success := true,
          questions := Trivia.paginate_questions page (Trivia.searchMatches store t),
          total_questions := (Trivia.searchMatches store t).length,
          current_category := none }), store) ∧
    (Trivia.searchMatches store t).Pairwise Trivia.idLe ∧
    (∀ q ∈ store, ∀ s a b, q.question = some s →
        Trivia.lowerList s.data = a ++ Trivia.lowerList t.data ++ b →
        q ∈ Trivia.searchMatches store t) ∧
    ((∀ q ∈ store, Trivia.matchesSearch t q = false) →
      Trivia.paginate_questions page (Trivia.searchMatches store t) = [] ∧
      (Trivia.searchMatches store t).length = 0) := by
  refine ⟨?_, ?_, ?_, ?_⟩
  · simp [Trivia.create_new_question, hterm, Trivia.truthy, hne]
  · exact List.Pairwise.sublist (List.filter_sublist _)
      (List.sorted_insertionSort Trivia.idLe store)
  · intro q hq s a b hs hsplit
    have hmatch : Trivia.matchesSearch t q = true := by
      simp only [Trivia.matchesSearch, hs]
      exact Trivia.ilike_of_contains s t a b hsplit
    exact List.mem_filter.mpr
      ⟨(List.perm_insertionSort Trivia.idLe store).mem_iff.mpr hq, hmatch⟩
  · intro hnone
    have hnil : Trivia.searchMatches store t = [] := by
      refine List.filter_eq_nil_iff.mpr ?_
      intro q hq
      have hq' : q ∈ store :=
        (List.perm_insertionSort Trivia.idLe store).mem_iff.mp hq
      simp [hnone q hq']
    rw [hnil]
    exact ⟨by simp [Trivia.paginate_questions], rfl⟩

/-- C6 witness: searching for `TITLE` in a store whose only question
contains `title`. -/
theorem C6_search_witness :
    (Trivia.QuestionBody.mk none none none none
        (some "TITLE")).searchTerm = some "TITLE" ∧
    (Trivia.create_new_question [q1ex]
        (Trivia.QuestionBody.mk none none none none (some "TITLE")) 1 9 =
      (Except.ok (Trivia.CreateResult.search
        { success := true,
          questions := Trivia.paginate_questions 1
            (Trivia.searchMatches [q1ex] "TITLE"),
          total_questions := (Trivia.searchMatches [q1ex] "TITLE").length,
          current_category := none }), [q1ex]) ∧
      (Trivia.searchMatches [q1ex] "TITLE").Pairwise Trivia.idLe ∧
      (∀ q ∈ [q1ex], ∀ s a b, q.question = some s →
          Trivia.lowerList s.data = a ++ Trivia.lowerList "TITLE".data ++ b →
          q ∈ Trivia.searchMatches [q1ex] "TITLE") ∧
      ((∀ q ∈ [q1ex], Trivia.matchesSearch "TITLE" q = false) →
        Trivia.paginate_questions 1 (Trivia.searchMatches [q1ex] "TITLE") = [] ∧
        (Trivia.searchMatches [q1ex] "TITLE").length = 0)) :=
  ⟨rfl,
   C6_search [q1ex] (Trivia.QuestionBody.mk none none none none (some "TITLE"))
     1 9 "TITLE" rfl (by decide)⟩

/-- C7: whenever `POST /quizzes` returns a question, its id is not in
the submitted `previous_questions`, it is one of the stored questions
(formatted), and — unless the selected category id is 0, which selects
the pool of all questions — it belongs to the selected category. -/
theorem C7_quiz (store : List Trivia.Question) (prev : List Nat)
    (qc : Trivia.QuizCategory) (pick : Nat) (r : Trivia.QuizResponse)
    (fq : Trivia.FormattedQuestion)
    (hok : Trivia.play_quiz store prev (some qc) pick = Except.ok r)
    (hq : r.question = some fq) :
    fq.id ∉ prev ∧ fq ∈ store.map Trivia.Question.format ∧
    (qc.id ≠ some 0 → fq.category = qc.id) := by
  simp only [Trivia.play_quiz] at hok
  by_cases hsel : (Trivia.quizSelection store qc).isEmpty
  · rw [if_pos hsel] at hok
    simp at hok
  · rw [if_neg hsel] at hok
    by_cases hlen : (((Trivia.quizSelection store qc).filter
        (fun q => !(prev.contains q.id))).map Trivia.Question.format).length = 0
    · rw [dif_pos hlen] at hok
      have hr := Except.ok.inj hok
      subst hr
      simp at hq
    · rw [dif_neg hlen] at hok
      have hr := Except.ok.inj hok
      subst hr
      have hget := Option.some.inj hq
      have hmem : fq ∈ ((Trivia.quizSelection store qc).filter
          (fun q => !(prev.contains q.id))).map Trivia.Question.format :=
        hget ▸ List.get_mem _ _ _
      rcases List.mem_map.mp hmem with ⟨q0, hq0, rfl⟩
      rcases List.mem_filter.mp hq0 with ⟨hq0sel, hq0prev⟩
      have hq0store : q0 ∈ store := by
        unfold Trivia.quizSelection at hq0sel
        split at hq0sel
        · exact hq0sel
        · exact (List.mem_filter.mp hq0sel).1
      refine ⟨?_, List.mem_map_of_mem Trivia.Question.format hq0store, ?_⟩
      · simpa using hq0prev
      · intro h0
        have hcond : (qc.id == some 0) = false := by
          simpa using h0
        unfold Trivia.quizSelection at hq0sel
        rw [if_neg (by simp [hcond])] at hq0sel
        have := (List.mem_filter.mp hq0sel).2
        simpa [Trivia.Question.format] using this

/-- C7 witness: category 1 with one previously-served question. -/
theorem C7_quiz_witness :
    Trivia.play_quiz [q1ex, q2ex] [2] (some ⟨some 1⟩) 0 =
      Except.ok { success := true, question := some (Trivia.Question.format q1ex) } ∧
    ((Trivia.Question.format q1ex).id ∉ [2] ∧
      Trivia.Question.format q1ex ∈ [q1ex, q2ex].map Trivia.Question.format ∧
      ((⟨some 1⟩ : Trivia.QuizCategory).id ≠ some 0 →
        (Trivia.Question.format q1ex).category = (⟨some 1⟩ : Trivia.QuizCategory).id)) :=
  ⟨rfl,
   C7_quiz [q1ex, q2ex] [2] ⟨some 1⟩ 0
     { success := true, question := some (Trivia.Question.format q1ex) }
     (Trivia.Question.format q1ex) rfl rfl⟩
